import Mathlib

/-!
Shallow embedding of the study-management backend (`server.js`) of the
AI-powered study management system.

The server is an Express application over a MySQL store with five tables
(`study_plans`, `notes`, `flashcard_sets`, `flashcards`, `chat_history`).
Each route handler is embedded as a pure Lean function over an explicit
`DB` state:

* tables are lists of row structures; `INSERT` appends a row carrying the
  table's auto-increment id, `UPDATE ... WHERE p` maps the update over the
  rows satisfying `p`, `SELECT ... WHERE p` filters, `DELETE ... WHERE p`
  keeps the rows not satisfying `p`;
* the external generative-model call of a handler is represented by the
  already-parsed value the handler extracts from the response
  (`planData`, `generatedCards`): the handler's behaviour after the call
  is a function of that value only;
* JavaScript `Date` values are epoch milliseconds (`Int`); the
  locale-dependent renderings `toLocaleDateString` / `toLocaleString` /
  `toISOString` are passed as abstract `String → String` arguments or
  ready-made strings, since the claims never constrain their contents;
* request-body fields checked for JS truthiness (`if (!x)`) are `Option`s,
  with the empty string and `0` counting as falsy like in JS;
* a handler returns the updated `DB` paired with the wire value or an
  `Err` describing the non-2xx response it sends.
-/

namespace StudyMgmt

/-- Non-2xx responses a handler can send: `400` and `404`
(the `500` generation-failure path precedes every store access and is not
modelled further). -/
inductive Err where
  | badRequest
  | notFound
  deriving DecidableEq, Repr

deriving instance DecidableEq for Except

/-- One entry of the generated study-plan array stored in `plan_json`:
`{week, topic, hours, tasks}`. -/
structure WeekEntry where
  week : Int
  topic : String
  hours : Int
  tasks : List String
  deriving DecidableEq, Repr

/-- A row of the `study_plans` table. -/
structure StudyPlanRow where
  id : Nat
  courseName : String
  deadline : String
  hoursPerDay : Int
  daysUntil : Int
  totalHours : Int
  plan : List WeekEntry
  progress : Int
  completed : Bool
  createdAt : String
  deriving DecidableEq, Repr

/-- A row of the `notes` table. -/
structure NoteRow where
  id : Nat
  title : String
  content : String
  source : String
  fileName : Option String
  createdAt : String
  deriving DecidableEq, Repr

/-- A row of the `flashcard_sets` table. -/
structure FlashcardSetRow where
  id : Nat
  topic : String
  totalCount : Nat
  knownCount : Nat
  createdAt : String
  deriving DecidableEq, Repr

/-- A row of the `flashcards` table; `setId` is the owning `flashcard_sets`
reference (`set_id`). -/
structure FlashcardRow where
  id : Nat
  setId : Nat
  question : String
  answer : String
  known : Bool
  deriving DecidableEq, Repr

/-- A row of the `chat_history` table. -/
structure ChatRow where
  id : Nat
  role : String
  content : String
  createdAt : String
  deriving DecidableEq, Repr

/-- The relational store: the five tables plus one auto-increment counter
per table. -/
structure DB where
  plans : List StudyPlanRow
  notes : List NoteRow
  sets : List FlashcardSetRow
  cards : List FlashcardRow
  chat : List ChatRow
  nextPlanId : Nat
  nextNoteId : Nat
  nextSetId : Nat
  nextCardId : Nat
  nextChatId : Nat
  deriving DecidableEq, Repr

/-- The empty store. -/
def DB.empty : DB :=
  { plans := [], notes := [], sets := [], cards := [], chat := []
    nextPlanId := 1, nextNoteId := 1, nextSetId := 1, nextCardId := 1
    nextChatId := 1 }

/-- JS truthiness of an optional string request field: absent and `""` are
falsy. -/
def truthyStr : Option String → Bool
  | none => false
  | some s => !(s == "")

/-- JS truthiness of an optional numeric request field: absent and `0` are
falsy. -/
def truthyInt : Option Int → Bool
  | none => false
  | some n => !(n == 0)

/-- `1000 * 60 * 60 * 24`: the divisor of the `daysUntil` computation. -/
def msPerDay : Int := 1000 * 60 * 60 * 24

/-- `Math.ceil(a / b)` for integer `a` and positive integer `b`, as used on
`(deadlineDate - today) / (1000*60*60*24)`.  Since `Int./` rounds toward
negative infinity, `-((-a) / b)` rounds the true quotient up. -/
def ceilDiv (a b : Int) : Int := -((-a) / b)

/-- Wire shape of a study plan as returned by the handlers. -/
structure StudyPlanWire where
  id : Nat
  courseName : String
  deadline : String
  hoursPerDay : Int
  daysUntil : Int
  totalHours : Int
  plan : List WeekEntry
  progress : Int
  completed : Bool
  createdAt : String
  deriving DecidableEq, Repr

/-- Row-to-wire mapping used by the study-plan `SELECT` handlers
(column aliasing only). -/
def StudyPlanRow.toWire (r : StudyPlanRow) : StudyPlanWire :=
  { id := r.id, courseName := r.courseName, deadline := r.deadline
    hoursPerDay := r.hoursPerDay, daysUntil := r.daysUntil
    totalHours := r.totalHours, plan := r.plan, progress := r.progress
    completed := r.completed, createdAt := r.createdAt }

/-- Handler for `POST /generate-study-plan`.  `deadlineMs` and `nowMs` are the epoch
milliseconds of `new Date(deadline)` and `new Date()`; `planData` is the
array parsed from the generator's response; `nowIso` renders
`new Date().toISOString()` (also used for the row's `created_at`). -/
def generateStudyPlan (db : DB) (courseName deadline : Option String)
    (hoursPerDay : Option Int) (deadlineMs nowMs : Int)
    (planData : List WeekEntry) (nowIso : String) :
    DB × Except Err StudyPlanWire :=
  if !(truthyStr courseName) || !(truthyStr deadline) ||
      !(truthyInt hoursPerDay) then
    (db, .error .badRequest)
  else
    let cn := courseName.getD ""
    let dl := deadline.getD ""
    let hpd := hoursPerDay.getD 0
    let daysUntil := ceilDiv (deadlineMs - nowMs) msPerDay
    let totalHours := daysUntil * hpd
    if daysUntil ≤ 0 then
      (db, .error .badRequest)
    else
      let row : StudyPlanRow :=
        { id := db.nextPlanId, courseName := cn, deadline := dl
          hoursPerDay := hpd, daysUntil := daysUntil
          totalHours := totalHours, plan := planData, progress := 0
          completed := false, createdAt := nowIso }
      ({ db with plans := db.plans ++ [row]
                 nextPlanId := db.nextPlanId + 1 },
       .ok (row.toWire))

/-- Handler for `POST /update-study-progress`: runs the `UPDATE ... WHERE id = ?`
first, then `SELECT ... WHERE id = ?`; answers 404 when the select comes
back empty. -/
def updateStudyProgress (db : DB) (id : Nat) (progress : Int)
    (completed : Bool) : DB × Except Err StudyPlanWire :=
  let plans1 := db.plans.map fun p =>
    if p.id == id then { p with progress := progress, completed := completed }
    else p
  let db1 := { db with plans := plans1 }
  match (plans1.filter fun p => p.id == id).head? with
  | some p => (db1, .ok p.toWire)
  | none => (db1, .error .notFound)

/-- Handler for `DELETE /studyplan/:id`. -/
def deleteStudyPlan (db : DB) (id : Nat) : DB :=
  { db with plans := db.plans.filter fun p => !(p.id == id) }

/-- Wire shape of a note as returned by the handlers. -/
structure NoteWire where
  id : Nat
  title : String
  content : String
  source : String
  createdAt : String
  deriving DecidableEq, Repr

/-- The fixed template body synthesized by `POST /upload-pdf`
(mock extraction keyed only by the file name). -/
def pdfMockContent (fileName : String) : String :=
  "# Notes from " ++ fileName ++
    "\n\n## Summary\nThis is a mock extraction from the uploaded PDF file.\n\n## Key Points\n- Point 1: Important concept from the document\n- Point 2: Critical information extracted\n- Point 3: Summary of main ideas\n\n## Detailed Notes\nThe document contains valuable information that has been processed and summarized for easy review."

/-- Handler for `POST /upload-pdf`: the handler destructures `{fileName, fileContent}`
but builds the note from `fileName` alone. -/
def uploadPdf (db : DB) (fileName fileContent : String) (nowIso : String) :
    DB × NoteWire :=
  let content := pdfMockContent fileName
  let row : NoteRow :=
    { id := db.nextNoteId, title := "Notes from " ++ fileName
      content := content, source := "pdf", fileName := some fileName
      createdAt := nowIso }
  ({ db with notes := db.notes ++ [row], nextNoteId := db.nextNoteId + 1 },
   { id := row.id, title := row.title, content := content, source := "pdf"
     createdAt := nowIso })

/-- One `{question, answer}` object parsed from the generator's response. -/
structure GenCard where
  question : String
  answer : String
  deriving DecidableEq, Repr

/-- Wire flashcard `{id, question, answer, known}`. -/
structure Card where
  id : Nat
  question : String
  answer : String
  known : Bool
  deriving DecidableEq, Repr

/-- Row-to-wire mapping used by the flashcard `SELECT` handlers. -/
def FlashcardRow.toCard (r : FlashcardRow) : Card :=
  { id := r.id, question := r.question, answer := r.answer, known := r.known }

/-- Wire shape of a flashcard set with its cards. -/
structure FlashcardSetWire where
  id : Nat
  topic : String
  totalCount : Nat
  knownCount : Nat
  createdAt : String
  cards : List Card
  deriving DecidableEq, Repr

/-- JS `topic || "General Study"`: the default used when the topic field
is absent or empty. -/
def topicOrDefault : Option String → String
  | some t => if t == "" then "General Study" else t
  | none => "General Study"

/-- The card-insertion loop of `POST /generate-flashcards`: inserts each
generated card owned by `setId` with `known = false`, accumulating the wire
cards with their assigned ids. -/
def insertCards (setId : Nat) : List GenCard → DB → DB × List Card
  | [], db => (db, [])
  | g :: rest, db =>
    let cid := db.nextCardId
    let row : FlashcardRow :=
      { id := cid, setId := setId, question := g.question
        answer := g.answer, known := false }
    let db1 := { db with cards := db.cards ++ [row], nextCardId := cid + 1 }
    let rec2 := insertCards setId rest db1
    (rec2.1, { id := cid, question := g.question, answer := g.answer
               known := false } :: rec2.2)

/-- Handler for `POST /generate-flashcards`.  `count` only shapes the prompt
(`cardCount = count || 5`); the persisted `total_count` is the length of
the parsed array `generatedCards`, and a missing or empty topic falls back
to the default topic string. -/
def generateFlashcards (db : DB) (topic : Option String) (count : Option Int)
    (generatedCards : List GenCard) (nowIso : String) :
    DB × FlashcardSetWire :=
  let topicVal := topicOrDefault topic
  let setId := db.nextSetId
  let setRow : FlashcardSetRow :=
    { id := setId, topic := topicVal, totalCount := generatedCards.length
      knownCount := 0, createdAt := nowIso }
  let db1 := { db with sets := db.sets ++ [setRow], nextSetId := setId + 1 }
  let (db2, cards) := insertCards setId generatedCards db1
  (db2, { id := setId, topic := topicVal, totalCount := cards.length
          knownCount := 0, createdAt := nowIso, cards := cards })

/-- The recount done by `POST /save-flashcard-status`: the number of cards
owned by set `sid` whose `known` flag is set
(`cards.filter(c => c.known).length` over the set's cards). -/
def countKnown (cards : List FlashcardRow) (sid : Nat) : Nat :=
  ((cards.filter fun c => c.setId == sid).filter fun c => c.known).length

/-- The row action of `UPDATE flashcards SET known = ? WHERE id = ? AND
set_id = ?`. -/
def updCard (setId cardId : Nat) (known : Bool) (c : FlashcardRow) :
    FlashcardRow :=
  if c.id == cardId && c.setId == setId then { c with known := known } else c

/-- The row action of `UPDATE flashcard_sets SET known_count = ? WHERE
id = ?`. -/
def updSetCount (setId n : Nat) (t : FlashcardSetRow) : FlashcardSetRow :=
  if t.id == setId then { t with knownCount := n } else t

/-- Handler for `POST /save-flashcard-status`: first `UPDATE flashcards SET known = ?
WHERE id = ? AND set_id = ?`, then fetch the set (404 when absent), then
recompute `known_count` from the set's cards and write it back. -/
def saveFlashcardStatus (db : DB) (setId cardId : Nat) (known : Bool) :
    DB × Except Err FlashcardSetWire :=
  let cards1 := db.cards.map (updCard setId cardId known)
  let db1 := { db with cards := cards1 }
  match (db1.sets.filter fun s => s.id == setId).head? with
  | some s =>
    let setCards := cards1.filter fun c => c.setId == setId
    let newKnownCount := (setCards.filter fun c => c.known).length
    let sets2 := db1.sets.map (updSetCount setId newKnownCount)
    ({ db1 with sets := sets2 },
     .ok { id := s.id, topic := s.topic, totalCount := s.totalCount
           knownCount := newKnownCount, createdAt := s.createdAt
           cards := setCards.map FlashcardRow.toCard })
  | none => (db1, .error .notFound)

/-- Apply a sequence of `save-flashcard-status` requests
`(setId, cardId, known)`, keeping only the store. -/
def applyStatuses (db : DB) : List (Nat × Nat × Bool) → DB
  | [] => db
  | (sid, cid, k) :: rest => applyStatuses (saveFlashcardStatus db sid cid k).1 rest

/-- Handler for `DELETE /flashcard/:id`: the handler runs a single
`DELETE FROM flashcard_sets WHERE id = ?`; no statement touches the
`flashcards` table. -/
def deleteFlashcardSet (db : DB) (id : Nat) : DB :=
  { db with sets := db.sets.filter fun s => !(s.id == id) }

/-- The `knownCount` consistency invariant: every `flashcard_sets` row's
`known_count` equals the number of its cards whose `known` flag is set. -/
def setInv (db : DB) : Prop :=
  ∀ s ∈ db.sets, s.knownCount = countKnown db.cards s.id

/-- SQL `SUM` of a per-row value, with the empty-table `NULL` collapsed to
`0` the way the handler's `|| 0` does. -/
def sqlSumNat (f : α → Nat) (rows : List α) : Nat :=
  rows.foldl (fun acc r => acc + f r) 0

/-- SQL `SUM` of a per-row integer value (`|| 0` on the empty table). -/
def sqlSumInt (f : α → Int) (rows : List α) : Int :=
  rows.foldl (fun acc r => acc + f r) 0

/-- The aggregate object returned by `GET /dashboard-stats`. -/
structure DashboardStats where
  totalNotes : Nat
  totalStudyPlans : Nat
  totalFlashcards : Nat
  totalTasks : Nat
  completedTasks : Int
  deriving DecidableEq, Repr

/-- Handler for `GET /dashboard-stats`.  `JSON_LENGTH(plan_json)` is the number of
top-level entries of the stored plan array (its weeks);
`FLOOR((progress / 100) * JSON_LENGTH(plan_json))` is exact decimal
arithmetic followed by floor, i.e. `⌊progress * len / 100⌋`. -/
def dashboardStats (db : DB) : DashboardStats :=
  { totalNotes := db.notes.length
    totalStudyPlans := db.plans.length
    totalFlashcards := sqlSumNat (fun s => s.totalCount) db.sets
    totalTasks := sqlSumNat (fun p => p.plan.length) db.plans
    completedTasks :=
      sqlSumInt (fun p => (p.progress * (p.plan.length : Int)) / 100) db.plans }

/-- The separator line: the equals sign repeated 50 times. -/
def eqLine : String := String.mk (List.replicate 50 '=')

/-- JS `Array.prototype.join(sep)`. -/
def joinSep (sep : String) : List String → String
  | [] => ""
  | [x] => x
  | x :: y :: rest => x ++ sep ++ joinSep sep (y :: rest)

/-- The per-week block produced by `formatStudyPlanForExport`. -/
def renderWeek (w : WeekEntry) : String :=
  "Week " ++ toString w.week ++ ": " ++ w.topic ++ "\nHours: " ++
    toString w.hours ++ "\nTasks:\n" ++
    joinSep "\n" (w.tasks.map fun t => "  - " ++ t) ++ "\n"

/-- The export formatter `formatStudyPlanForExport`.  `locDate` and `locDateTime` abstract the
locale-dependent `toLocaleDateString` / `toLocaleString` renderings of the
stored date strings. -/
def formatStudyPlanForExport (locDate locDateTime : String → String)
    (plan : StudyPlanRow) : String :=
  let header := "STUDY PLAN: " ++ plan.courseName ++ "\n" ++ eqLine ++ "\n\n"
  let details := "Deadline: " ++ locDate plan.deadline ++
    "\nHours per day: " ++ toString plan.hoursPerDay ++
    "\nTotal hours: " ++ toString plan.totalHours ++
    "\nProgress: " ++ toString plan.progress ++ "%\n\n"
  let weeks := joinSep "\n" (plan.plan.map renderWeek)
  header ++ details ++ weeks ++
    ("\nCreated: " ++ locDateTime plan.createdAt ++ "\n")

/-- The export formatter `formatChatHistoryForExport`. -/
def formatChatHistoryForExport (locDateTime : String → String)
    (history : List ChatRow) : String :=
  let header := "CHAT HISTORY\n" ++ eqLine ++ "\n\n"
  let messages := joinSep "\n" (history.map fun msg =>
    "[" ++ locDateTime msg.createdAt ++ "] " ++ msg.role.toUpper ++
      ":\n" ++ msg.content ++ "\n")
  header ++ messages

/-- The per-card block of `formatFlashcardsForExport` at 0-based index
`i` (`Card ${i + 1}: ...`). -/
def renderCard (i : Nat) (card : FlashcardRow) : String :=
  "Card " ++ toString (i + 1) ++ ":\nQ: " ++ card.question ++ "\nA: " ++
    card.answer ++ "\nStatus: " ++
    (if card.known then "Known" else "Unknown") ++ "\n"

/-- The indexed `map` over the set's cards in `formatFlashcardsForExport`. -/
def renderCards : Nat → List FlashcardRow → List String
  | _, [] => []
  | i, c :: rest => renderCard i c :: renderCards (i + 1) rest

/-- The export formatter `formatFlashcardsForExport`, applied to the set row and its cards. -/
def formatFlashcardsForExport (locDateTime : String → String)
    (s : FlashcardSetRow) (cards : List FlashcardRow) : String :=
  let header := "FLASHCARDS: " ++ s.topic ++ "\n" ++ eqLine ++
    "\n\nTotal Cards: " ++ toString s.totalCount ++ "\nKnown: " ++
    toString s.knownCount ++ "\n\n"
  header ++ joinSep "\n" (renderCards 0 cards) ++
    ("Created: " ++ locDateTime s.createdAt ++ "\n")

/-- The ASCII part of JS `\s`: space, tab, newline, carriage return,
vertical tab, form feed. -/
def isJsWs (c : Char) : Bool :=
  c == ' ' || c == '\t' || c == '\n' || c == '\r' ||
    c == Char.ofNat 11 || c == Char.ofNat 12

/-- JS replace of every run of whitespace on a character list: the flag
records whether the previous character belonged to a whitespace run, so
each maximal run becomes a single hyphen. -/
def collapseWsAux : Bool → List Char → List Char
  | _, [] => []
  | inRun, c :: cs =>
    if isJsWs c then
      if inRun then collapseWsAux true cs
      else '-' :: collapseWsAux true cs
    else c :: collapseWsAux false cs

/-- JS replace of every run of whitespace with a single hyphen on a
character list. -/
def collapseWs (l : List Char) : List Char := collapseWsAux false l

/-- The slug used in export filenames: every run of whitespace replaced by
a hyphen. -/
def slugify (s : String) : String := String.mk (collapseWs s.data)

/-- Handler for `POST /download-export`.  `nowMs` is `Date.now()`; the result is
`(content, filename)` on success.  A record that is not found leaves
`content` as the empty string, which the final `if (!content)` check turns
into a 404. -/
def downloadExport (db : DB) (ty : String) (id : Nat) (format : String)
    (nowMs : Int) (locDate locDateTime : String → String) :
    Except Err (String × String) :=
  let res : Except Err (String × String) :=
    if ty == "study" then
      .ok (match (db.plans.filter fun p => p.id == id).head? with
        | some p =>
          (formatStudyPlanForExport locDate locDateTime p,
           "study-plan-" ++ slugify p.courseName ++ "-" ++ toString nowMs ++
             "." ++ format)
        | none => ("", ""))
    else if ty == "notes" then
      .ok (match (db.notes.filter fun n => n.id == id).head? with
        | some n =>
          (n.content,
           "note-" ++ slugify n.title ++ "-" ++ toString nowMs ++ "." ++
             format)
        | none => ("", ""))
    else if ty == "chat" then
      .ok (formatChatHistoryForExport locDateTime db.chat,
        "chat-history-" ++ toString nowMs ++ "." ++ format)
    else if ty == "flashcards" then
      .ok (match (db.sets.filter fun s => s.id == id).head? with
        | some s =>
          (formatFlashcardsForExport locDateTime s
             (db.cards.filter fun c => c.setId == id),
           "flashcards-" ++ slugify s.topic ++ "-" ++ toString nowMs ++
             "." ++ format)
        | none => ("", ""))
    else .error .badRequest
  match res with
  | .error e => .error e
  | .ok (content, filename) =>
    if content == "" then .error .notFound else .ok (content, filename)

/-! ## Generic lemmas about the SQL-statement embeddings -/

/-- An `UPDATE` leaves the table unchanged when no row satisfies its
`WHERE` clause. -/
theorem map_update_eq_self {α : Type} {l : List α} {q : α → Bool} {f : α → α}
    (h : ∀ a ∈ l, ¬q a = true) :
    (l.map fun a => if q a then f a else a) = l := by
  induction l with
  | nil => rfl
  | cons a t ih =>
    have ha := h a (List.mem_cons_self a t)
    rw [List.map_cons, if_neg ha, ih fun b hb => h b (List.mem_cons_of_mem a hb)]

/-- The integer ceiling division used for `daysUntil` is the mathematical
ceiling of the rational quotient. -/
theorem ceilDiv_eq_ceil (a : Int) (d : Nat) :
    ceilDiv a (d : Int) = ⌈(a : ℚ) / (d : ℚ)⌉ := by
  have h1 : (a : ℚ) / (d : ℚ) = -(((-a : ℤ) : ℚ) / ((d : ℕ) : ℚ)) := by
    push_cast
    ring
  rw [h1, Int.ceil_neg, Rat.floor_intCast_div_natCast]
  rfl

/-- The `daysUntil` divisor as a natural-number cast. -/
theorem msPerDay_eq : msPerDay = ((86400000 : ℕ) : ℤ) := by decide

/-- The set-count invariant is decidable, so witnesses can be checked by
evaluation. -/
instance instDecidableSetInv (db : DB) : Decidable (setInv db) := by
  unfold setInv
  infer_instance

/-! ## C9: upload-pdf ignores fileContent -/

/-- C9: the note persisted and returned by `POST /upload-pdf` is a function
of `fileName` alone: two requests with the same `fileName` and arbitrary
`fileContent` values produce identical stores and identical notes (same
title, same content). -/
theorem uploadPdf_ignores_fileContent (db : DB) (fileName c1 c2 nowIso : String) :
    uploadPdf db fileName c1 nowIso = uploadPdf db fileName c2 nowIso := rfl

/-! ## C10: update-study-progress on a missing id -/

/-- C10: when no study plan carries the requested id, the
`update-study-progress` handler answers 404 and the store is unchanged:
the `UPDATE` statement that runs before the existence check matches zero
rows. -/
theorem updateStudyProgress_missing_id (db : DB) (id : Nat) (progress : Int)
    (completed : Bool) (h : ∀ p ∈ db.plans, p.id ≠ id) :
    updateStudyProgress db id progress completed = (db, .error .notFound) := by
  unfold updateStudyProgress
  have hq : ∀ p ∈ db.plans, ¬(p.id == id) = true := by
    intro p hp
    simpa using h p hp
  simp only [map_update_eq_self hq, List.filter_eq_nil_iff.mpr hq]
  rfl

/-- A store with a single study plan, built through the service. -/
def dbPlan1 : DB :=
  (generateStudyPlan DB.empty (some "Math") (some "2026-01-01") (some 2)
    (7 * 86400000) 0 [] "t0").1

/-- Witness for C10 at a concrete store: plan 1 exists, id 2 does not. -/
theorem updateStudyProgress_missing_id_witness :
    updateStudyProgress dbPlan1 2 50 true = (dbPlan1, .error .notFound) :=
  updateStudyProgress_missing_id dbPlan1 2 50 true (by decide)

/-! ## C4: generate-study-plan derived fields and past-deadline guard -/

/-- C4: with all three fields present, a past-or-today deadline
(`daysUntil ≤ 0`) makes `generate-study-plan` answer 400 with nothing
persisted, and otherwise exactly one row is appended whose `daysUntil` is
the ceiling of `(deadline − now) / 1 day` and whose `totalHours` is
`daysUntil * hoursPerDay`; the returned plan is that row. -/
theorem generateStudyPlan_correct (db : DB) (cn dl : String) (hpd : Int)
    (deadlineMs nowMs : Int) (planData : List WeekEntry) (nowIso : String)
    (hcn : cn ≠ "") (hdl : dl ≠ "") (hh : hpd ≠ 0) :
    (ceilDiv (deadlineMs - nowMs) msPerDay ≤ 0 →
      generateStudyPlan db (some cn) (some dl) (some hpd) deadlineMs nowMs
        planData nowIso = (db, .error .badRequest)) ∧
    (0 < ceilDiv (deadlineMs - nowMs) msPerDay →
      ∃ row : StudyPlanRow,
        generateStudyPlan db (some cn) (some dl) (some hpd) deadlineMs nowMs
          planData nowIso
          = ({ db with plans := db.plans ++ [row]
                       nextPlanId := db.nextPlanId + 1 }, .ok row.toWire) ∧
        row.daysUntil = ⌈((deadlineMs - nowMs : ℤ) : ℚ) / (86400000 : ℚ)⌉ ∧
        row.totalHours = row.daysUntil * hpd) := by
  have hts : truthyStr (some cn) = true := by
    simp [truthyStr, hcn]
  have htd : truthyStr (some dl) = true := by
    simp [truthyStr, hdl]
  have hth : truthyInt (some hpd) = true := by
    simp [truthyInt, hh]
  have hceil : ceilDiv (deadlineMs - nowMs) msPerDay
      = ⌈((deadlineMs - nowMs : ℤ) : ℚ) / (86400000 : ℚ)⌉ := by
    rw [msPerDay_eq, ceilDiv_eq_ceil]
    norm_num
  have hcond : (!(truthyStr (some cn)) || !(truthyStr (some dl)) ||
      !(truthyInt (some hpd))) = false := by
    simp [hts, htd, hth]
  constructor
  · intro hle
    simp [generateStudyPlan, hcond, if_pos hle]
  · intro hgt
    refine ⟨{ id := db.nextPlanId, courseName := cn, deadline := dl
              hoursPerDay := hpd
              daysUntil := ceilDiv (deadlineMs - nowMs) msPerDay
              totalHours := ceilDiv (deadlineMs - nowMs) msPerDay * hpd
              plan := planData, progress := 0, completed := false
              createdAt := nowIso }, ?_, ?_, ?_⟩
    · simp only [generateStudyPlan, hcond, Bool.false_eq_true, if_false,
        if_neg (by omega : ¬ceilDiv (deadlineMs - nowMs) msPerDay ≤ 0),
        Option.getD_some]
    · exact hceil
    · rfl

/-- Witness for C4: deadline seven days ahead of now, two hours per day;
daysUntil is 7 and totalHours 14 on the persisted row. -/
theorem generateStudyPlan_correct_witness :
    ∃ row : StudyPlanRow,
      generateStudyPlan DB.empty (some "Math") (some "2026-01-01") (some 2)
        (7 * 86400000) 0 [] "t0"
        = ({ DB.empty with plans := DB.empty.plans ++ [row]
                           nextPlanId := DB.empty.nextPlanId + 1 },
           .ok row.toWire) ∧
      row.daysUntil = ⌈(((7 * 86400000 : ℤ) - 0 : ℤ) : ℚ) / (86400000 : ℚ)⌉ ∧
      row.totalHours = row.daysUntil * 2 :=
  (generateStudyPlan_correct DB.empty "Math" "2026-01-01" 2
    (7 * 86400000) 0 [] "t0" (by decide) (by decide) (by decide)).2 (by decide)

/-! ## C1: generate-flashcards persists the actual generated length -/

/-- The card-insertion loop never touches the `flashcard_sets` table. -/
theorem insertCards_sets (setId : Nat) (gcs : List GenCard) (db : DB) :
    (insertCards setId gcs db).1.sets = db.sets := by
  induction gcs generalizing db with
  | nil => rfl
  | cons g rest ih => simp [insertCards, ih]

/-- The card-insertion loop returns one wire card per generated card. -/
theorem insertCards_length (setId : Nat) (gcs : List GenCard) (db : DB) :
    (insertCards setId gcs db).2.length = gcs.length := by
  induction gcs generalizing db with
  | nil => rfl
  | cons g rest ih => simp [insertCards, ih]

/-- Every wire card returned by the insertion loop has `known = false`. -/
theorem insertCards_wire_known (setId : Nat) (gcs : List GenCard) (db : DB) :
    ∀ c ∈ (insertCards setId gcs db).2, c.known = false := by
  induction gcs generalizing db with
  | nil =>
    intro c hc
    cases hc
  | cons g rest ih =>
    intro c hc
    simp only [insertCards, List.mem_cons] at hc
    rcases hc with rfl | hc
    · rfl
    · exact ih _ c hc

/-- Every card row present after the insertion loop is either an old row
or a fresh row with `known = false` owned by the new set. -/
theorem insertCards_row_known (setId : Nat) (gcs : List GenCard) (db : DB) :
    ∀ r ∈ (insertCards setId gcs db).1.cards,
      r ∈ db.cards ∨ (r.setId = setId ∧ r.known = false) := by
  induction gcs generalizing db with
  | nil =>
    intro r hr
    exact Or.inl hr
  | cons g rest ih =>
    intro r hr
    simp only [insertCards] at hr
    rcases ih _ r hr with h | h
    · simp only [List.mem_append, List.mem_singleton] at h
      rcases h with h | rfl
      · exact Or.inl h
      · exact Or.inr ⟨rfl, rfl⟩
    · exact Or.inr h

/-- C1: `generate-flashcards` persists a `flashcard_sets` row whose
`totalCount` is the length of the array actually parsed from the
generator's response (independent of the requested `count`) and whose
`knownCount` is 0; the returned set reports the same counts, every
returned card has `known = false`, and every persisted card row is either
pre-existing or fresh with `known = false`. -/
theorem generateFlashcards_counts (db : DB) (topic : Option String)
    (count : Option Int) (gcs : List GenCard) (nowIso : String) :
    ((generateFlashcards db topic count gcs nowIso).1.sets
      = db.sets ++ [{ id := db.nextSetId, topic := topicOrDefault topic
                      totalCount := gcs.length, knownCount := 0
                      createdAt := nowIso }]) ∧
    (generateFlashcards db topic count gcs nowIso).2.totalCount
      = gcs.length ∧
    (generateFlashcards db topic count gcs nowIso).2.knownCount = 0 ∧
    (∀ c ∈ (generateFlashcards db topic count gcs nowIso).2.cards,
      c.known = false) ∧
    (∀ r ∈ (generateFlashcards db topic count gcs nowIso).1.cards,
      r ∈ db.cards ∨ (r.setId = db.nextSetId ∧ r.known = false)) := by
  refine ⟨?_, ?_, rfl, ?_, ?_⟩
  · simpa [generateFlashcards] using insertCards_sets db.nextSetId gcs _
  · simpa [generateFlashcards] using insertCards_length db.nextSetId gcs _
  · intro c hc
    simp only [generateFlashcards] at hc
    exact insertCards_wire_known db.nextSetId gcs _ c hc
  · intro r hr
    simp only [generateFlashcards] at hr
    rcases insertCards_row_known db.nextSetId gcs _ r hr with h | h
    · exact Or.inl h
    · exact Or.inr h

/-- The three-card generator response used by the concrete stores. -/
def gcs3 : List GenCard :=
  [{ question := "q1", answer := "a1" },
   { question := "q2", answer := "a2" },
   { question := "q3", answer := "a3" }]

/-- The first wire card assigned by `generateFlashcards` on the empty
store. -/
def cW1 : Card := { id := 1, question := "q1", answer := "a1", known := false }

/-- Witness for C1: requesting `count = 5` while the generator returns 3
cards persists and returns `totalCount = 3` with `knownCount = 0` and an
unknown first card. -/
theorem generateFlashcards_counts_witness :
    (generateFlashcards DB.empty (some "Biology") (some 5) gcs3 "t0").2.totalCount
      = 3 ∧
    (generateFlashcards DB.empty (some "Biology") (some 5) gcs3 "t0").2.knownCount
      = 0 ∧
    cW1.known = false := by
  have h := generateFlashcards_counts DB.empty (some "Biology") (some 5) gcs3 "t0"
  exact ⟨h.2.1.trans (by decide), h.2.2.1,
    h.2.2.2.1 cW1 (by decide)⟩

/-! ## C3: deleting a flashcard set does not cascade to its cards -/

/-- A store holding one flashcard set (id 1) with three cards, built
through the service. -/
def dbSet1 : DB :=
  (generateFlashcards DB.empty (some "Biology") (some 5) gcs3 "t0").1

/-- C3 (counterexample): on the service-built store holding set 1 with its
three cards, `DELETE /flashcard/:id` removes the set row yet all three
card rows — each with `setId = 1` — survive verbatim, refuting the claim
that the service cascades and leaves no orphan rows with that setId. -/
theorem deleteFlashcardSet_orphans_cx :
    dbSet1.sets
      = [{ id := 1, topic := "Biology", totalCount := 3, knownCount := 0
           createdAt := "t0" }] ∧
    (deleteFlashcardSet dbSet1 1).sets = [] ∧
    (deleteFlashcardSet dbSet1 1).cards
      = [⟨1, 1, "q1", "a1", false⟩, ⟨2, 1, "q2", "a2", false⟩,
         ⟨3, 1, "q3", "a3", false⟩] := by
  decide

/-- C3 (amended): deleting a flashcard set by id removes exactly the
`flashcard_sets` rows carrying that id — a set row survives the delete iff
it was present and carries a different id — and the service runs no
statement against any other table: the `flashcards` rows (including those
owned by the deleted set, which become orphans), the plans, the notes and
the chat history are all unchanged.  Any cascade would have to come from
the database, not the service. -/
theorem deleteFlashcardSet_amended (db : DB) (id : Nat) :
    (∀ s, s ∈ (deleteFlashcardSet db id).sets ↔ s ∈ db.sets ∧ s.id ≠ id) ∧
    (deleteFlashcardSet db id).cards = db.cards ∧
    (deleteFlashcardSet db id).plans = db.plans ∧
    (deleteFlashcardSet db id).notes = db.notes ∧
    (deleteFlashcardSet db id).chat = db.chat := by
  refine ⟨?_, rfl, rfl, rfl, rfl⟩
  intro s
  constructor
  · intro hs
    refine ⟨(List.mem_filter.mp hs).1, ?_⟩
    have hkeep := (List.mem_filter.mp hs).2
    simpa using hkeep
  · intro hs
    exact List.mem_filter.mpr ⟨hs.1, by simpa using hs.2⟩

/-- A store holding two flashcard sets (ids 1 and 2), built through the
service. -/
def dbTwo : DB :=
  (generateFlashcards dbSet1 (some "Chem") (some 2)
    [{ question := "q4", answer := "a4" }] "t1").1

/-- The second set row of `dbTwo`. -/
def sChem : FlashcardSetRow :=
  { id := 2, topic := "Chem", totalCount := 1, knownCount := 0
    createdAt := "t1" }

/-- Witness for C3 (amended) at a concrete two-set store: deleting set 1
keeps set 2 (present with a different id) and every card row. -/
theorem deleteFlashcardSet_amended_witness :
    sChem ∈ (deleteFlashcardSet dbTwo 1).sets ∧
    (deleteFlashcardSet dbTwo 1).cards = dbTwo.cards := by
  have h := deleteFlashcardSet_amended dbTwo 1
  exact ⟨(h.1 sChem).mpr ⟨by decide, by decide⟩, h.2.1⟩

/-! ## C5: save-flashcard-status on a missing set -/

/-- The orphan store: set 1 generated, then deleted without cascade. -/
def dbOrphan : DB := deleteFlashcardSet dbSet1 1

/-- C5 (counterexample): on the reachable store with orphan cards a
`save-flashcard-status` call whose setId matches no set answers 404 yet
mutates a flashcard row, because the card `UPDATE` runs before the
existence check. -/
theorem saveFlashcardStatus_mutation_cx :
    (∀ c ∈ dbOrphan.cards, c.known = false) ∧
    (saveFlashcardStatus dbOrphan 1 2 true).2 = .error .notFound ∧
    (saveFlashcardStatus dbOrphan 1 2 true).1 ≠ dbOrphan ∧
    ∃ c ∈ (saveFlashcardStatus dbOrphan 1 2 true).1.cards, c.known = true := by
  decide

/-- A card `UPDATE` guarded by a setId no row of the table carries is the
identity on the table. -/
theorem map_updCard_eq_self (setId cardId : Nat) (known : Bool)
    (cards : List FlashcardRow) (h : ∀ c ∈ cards, c.setId ≠ setId) :
    cards.map (updCard setId cardId known) = cards := by
  induction cards with
  | nil => rfl
  | cons c cs ih =>
    have hc : (c.id == cardId && c.setId == setId) = false := by
      have := h c (List.mem_cons_self c cs)
      simp [this]
    simp only [List.map_cons, updCard, hc, Bool.false_eq_true, if_false,
      ih fun b hb => h b (List.mem_cons_of_mem c hb)]

/-- The card `UPDATE` of `save-flashcard-status` leaves the sublist of
cards owned by any other set exactly unchanged (the guard on `set_id`
prevents cross-set writes). -/
theorem filter_other_sets_updCard (setId cardId : Nat) (known : Bool)
    (cards : List FlashcardRow) :
    ((cards.map (updCard setId cardId known)).filter
        fun c => !(c.setId == setId))
      = cards.filter fun c => !(c.setId == setId) := by
  induction cards with
  | nil => rfl
  | cons c cs ih =>
    by_cases hc : (c.id == cardId && c.setId == setId) = true
    · have hset : (c.setId == setId) = true :=
        ((Bool.and_eq_true _ _).mp hc).2
      have hupd : updCard setId cardId known c = { c with known := known } := by
        simp [updCard, hc]
      simp [hupd, List.filter_cons, hset, ih]
    · have hupd : updCard setId cardId known c = c := by
        simp only [updCard, hc, Bool.false_eq_true, if_false]
      simp [hupd, List.filter_cons, ih]

/-- C5 (amended): when the setId matches no flashcard set the endpoint
answers 404 and neither the `flashcard_sets` table nor any card owned by a
different set changes; if moreover no card row carries the stale setId the
whole store is unchanged.  (Only an orphan card left behind by a set
deletion and carrying the stale setId can be written, since the card
`UPDATE` runs before the existence check.) -/
theorem saveFlashcardStatus_missing_set_amended (db : DB) (setId cardId : Nat)
    (known : Bool) (hset : ∀ s ∈ db.sets, s.id ≠ setId) :
    (saveFlashcardStatus db setId cardId known).2 = .error .notFound ∧
    (saveFlashcardStatus db setId cardId known).1.sets = db.sets ∧
    ((saveFlashcardStatus db setId cardId known).1.cards.filter
        fun c => !(c.setId == setId))
      = (db.cards.filter fun c => !(c.setId == setId)) ∧
    ((∀ c ∈ db.cards, c.setId ≠ setId) →
      (saveFlashcardStatus db setId cardId known).1 = db) := by
  have hnil : (db.sets.filter fun s => s.id == setId) = [] :=
    List.filter_eq_nil_iff.mpr fun s hs => by simpa using hset s hs
  refine ⟨?_, ?_, ?_, ?_⟩
  · simp only [saveFlashcardStatus, hnil]
    rfl
  · simp only [saveFlashcardStatus, hnil]
    rfl
  · simp only [saveFlashcardStatus, hnil]
    exact filter_other_sets_updCard setId cardId known db.cards
  · intro hcards
    simp only [saveFlashcardStatus, hnil, map_updCard_eq_self setId cardId known
      db.cards hcards, List.head?_nil]

/-- Witness for C5 (amended): a stale setId carried by no set and no card
leaves the orphan store untouched. -/
theorem saveFlashcardStatus_missing_set_amended_witness :
    (saveFlashcardStatus dbOrphan 99 1 true).2 = .error .notFound ∧
    (saveFlashcardStatus dbOrphan 99 1 true).1 = dbOrphan := by
  have h := saveFlashcardStatus_missing_set_amended dbOrphan 99 1 true (by decide)
  exact ⟨h.1, h.2.2.2 (by decide)⟩

/-! ## C2: the knownCount invariant and idempotence of status updates -/

/-- The card `UPDATE` does not change which cards a different set owns,
nor their flags. -/
theorem filter_setId_updCard (setId cardId : Nat) (known : Bool)
    (cards : List FlashcardRow) (sid : Nat) (h : sid ≠ setId) :
    ((cards.map (updCard setId cardId known)).filter
        fun c => c.setId == sid)
      = cards.filter fun c => c.setId == sid := by
  induction cards with
  | nil => rfl
  | cons c cs ih =>
    by_cases hc : (c.id == cardId && c.setId == setId) = true
    · have hset : c.setId = setId := by
        simpa using ((Bool.and_eq_true _ _).mp hc).2
      have hupd : updCard setId cardId known c = { c with known := known } := by
        simp [updCard, hc]
      have hne : (c.setId == sid) = false := by
        simp [hset, Ne.symm h]
      simp [hupd, List.filter_cons, hne, ih]
    · have hupd : updCard setId cardId known c = c := by
        simp only [updCard, hc, Bool.false_eq_true, if_false]
      simp [hupd, List.filter_cons, ih]

/-- The recount of a set other than the updated one is unchanged by the
card `UPDATE`. -/
theorem countKnown_updCard_ne (setId cardId : Nat) (known : Bool)
    (cards : List FlashcardRow) (sid : Nat) (h : sid ≠ setId) :
    countKnown (cards.map (updCard setId cardId known)) sid
      = countKnown cards sid := by
  unfold countKnown
  rw [filter_setId_updCard setId cardId known cards sid h]

/-- One `save-flashcard-status` call preserves the knownCount invariant:
the updated set gets the freshly recomputed count and every other set's
cards are untouched. -/
theorem setInv_save (db : DB) (setId cardId : Nat) (known : Bool)
    (h : setInv db) :
    setInv (saveFlashcardStatus db setId cardId known).1 := by
  rcases hh : (db.sets.filter fun s => s.id == setId).head? with _ | s0
  · have hnone := List.head?_eq_none_iff.mp hh
    have hne : ∀ s ∈ db.sets, s.id ≠ setId := by
      intro s hs
      have := List.filter_eq_nil_iff.mp hnone s hs
      simpa using this
    simp only [saveFlashcardStatus, hh]
    intro s hs
    rw [countKnown_updCard_ne setId cardId known db.cards s.id (hne s hs)]
    exact h s hs
  · simp only [saveFlashcardStatus, hh]
    intro t ht
    simp only [List.mem_map] at ht
    obtain ⟨t0, ht0, rfl⟩ := ht
    by_cases hid : t0.id = setId
    · have hupd : updSetCount setId
          (((db.cards.map (updCard setId cardId known)).filter
              (fun c => c.setId == setId)).filter fun c => c.known).length t0
          = { t0 with knownCount :=
              (((db.cards.map (updCard setId cardId known)).filter
                  (fun c => c.setId == setId)).filter fun c => c.known).length } := by
        simp [updSetCount, hid]
      rw [hupd]
      show _ = countKnown (db.cards.map (updCard setId cardId known)) t0.id
      rw [hid]
      rfl
    · have hupd : updSetCount setId
          (((db.cards.map (updCard setId cardId known)).filter
              (fun c => c.setId == setId)).filter fun c => c.known).length t0
          = t0 := by
        simp [updSetCount, hid]
      rw [hupd]
      show t0.knownCount = countKnown (db.cards.map (updCard setId cardId known)) t0.id
      rw [countKnown_updCard_ne setId cardId known db.cards t0.id hid]
      exact h t0 ht0

/-- Every sequence of `save-flashcard-status` calls preserves the
knownCount invariant. -/
theorem setInv_applyStatuses (db : DB) (reqs : List (Nat × Nat × Bool))
    (h : setInv db) : setInv (applyStatuses db reqs) := by
  induction reqs generalizing db with
  | nil => exact h
  | cons r rest ih =>
    exact ih _ (setInv_save db r.1 r.2.1 r.2.2 h)

/-- The card `UPDATE` row action is idempotent. -/
theorem updCard_idem (setId cardId : Nat) (known : Bool) (c : FlashcardRow) :
    updCard setId cardId known (updCard setId cardId known c)
      = updCard setId cardId known c := by
  by_cases hc : (c.id == cardId && c.setId == setId) = true
  · simp [updCard, hc]
  · simp [updCard, hc]

/-- Repeating the card `UPDATE` over the table is a no-op. -/
theorem map_updCard_idem (setId cardId : Nat) (known : Bool)
    (cards : List FlashcardRow) :
    (cards.map (updCard setId cardId known)).map (updCard setId cardId known)
      = cards.map (updCard setId cardId known) := by
  rw [List.map_map]
  exact List.map_congr_left fun c _ => updCard_idem setId cardId known c

/-- The set-count `UPDATE` row action is idempotent. -/
theorem updSetCount_idem (setId n : Nat) (t : FlashcardSetRow) :
    updSetCount setId n (updSetCount setId n t) = updSetCount setId n t := by
  by_cases ht : t.id = setId
  · simp [updSetCount, ht]
  · simp [updSetCount, ht]

/-- Repeating the set-count `UPDATE` over the table is a no-op. -/
theorem map_updSetCount_idem (setId n : Nat) (sets : List FlashcardSetRow) :
    (sets.map (updSetCount setId n)).map (updSetCount setId n)
      = sets.map (updSetCount setId n) := by
  rw [List.map_map]
  exact List.map_congr_left fun t _ => updSetCount_idem setId n t

/-- The set-count `UPDATE` keeps ids, so it commutes with the id filter. -/
theorem filter_updSetCount (setId n : Nat) (sets : List FlashcardSetRow) :
    ((sets.map (updSetCount setId n)).filter fun s => s.id == setId)
      = (sets.filter fun s => s.id == setId).map (updSetCount setId n) := by
  induction sets with
  | nil => rfl
  | cons t ts ih =>
    have hid : (updSetCount setId n t).id = t.id := by
      unfold updSetCount
      split <;> rfl
    by_cases ht : (t.id == setId) = true
    · simp [List.filter_cons, hid, ht, ih]
    · simp [List.filter_cons, hid, ht, ih]

/-- Repeating the same `save-flashcard-status` request leaves the store
(and in particular the persisted knownCount) unchanged. -/
theorem saveFlashcardStatus_idem (db : DB) (setId cardId : Nat) (known : Bool) :
    (saveFlashcardStatus (saveFlashcardStatus db setId cardId known).1
      setId cardId known).1
      = (saveFlashcardStatus db setId cardId known).1 := by
  rcases hh : (db.sets.filter fun s => s.id == setId).head? with _ | s0
  · have h1 : (saveFlashcardStatus db setId cardId known).1
        = { db with cards := db.cards.map (updCard setId cardId known) } := by
      simp only [saveFlashcardStatus, hh]
    rw [h1]
    simp only [saveFlashcardStatus, map_updCard_idem, hh]
  · have h1 : (saveFlashcardStatus db setId cardId known).1
        = { db with
            cards := db.cards.map (updCard setId cardId known)
            sets := db.sets.map (updSetCount setId
              (((db.cards.map (updCard setId cardId known)).filter
                  (fun c => c.setId == setId)).filter fun c => c.known).length) } := by
      simp only [saveFlashcardStatus, hh]
    rw [h1]
    simp only [saveFlashcardStatus, map_updCard_idem, filter_updSetCount,
      List.head?_map, hh, Option.map_some, Option.map_some',
      map_updSetCount_idem]

/-- C2: for a store satisfying the knownCount invariant (as every store
whose sets came out of generate-flashcards does), any sequence of
`save-flashcard-status` calls leaves every set's persisted `knownCount`
equal to the number of its cards whose `known` flag is true, and repeating
the same status update is a no-op on the store and hence on the count. -/
theorem knownCount_invariant (db : DB) (reqs : List (Nat × Nat × Bool))
    (h : setInv db) :
    setInv (applyStatuses db reqs) ∧
    (∀ setId cardId known,
      (saveFlashcardStatus (saveFlashcardStatus db setId cardId known).1
        setId cardId known).1
        = (saveFlashcardStatus db setId cardId known).1) :=
  ⟨setInv_applyStatuses db reqs h,
   fun setId cardId known => saveFlashcardStatus_idem db setId cardId known⟩

/-- Witness for C2 on a concrete store built by the service: the invariant
survives a request sequence with a repeated update, and the repeat is a
no-op. -/
theorem knownCount_invariant_witness :
    setInv (applyStatuses dbSet1 [(1, 2, true), (1, 2, true), (1, 3, true)]) ∧
    (saveFlashcardStatus (saveFlashcardStatus dbSet1 1 2 true).1 1 2 true).1
      = (saveFlashcardStatus dbSet1 1 2 true).1 := by
  have h := knownCount_invariant dbSet1 [(1, 2, true), (1, 2, true), (1, 3, true)]
    (by decide)
  exact ⟨h.1, h.2 1 2 true⟩

/-! ## C8: dashboard statistics -/

/-- Folding the SQL `SUM` from any accumulator totals the per-row values. -/
theorem sqlSumNat_foldl {α : Type} (f : α → Nat) (rows : List α) (a0 : Nat) :
    rows.foldl (fun acc r => acc + f r) a0 = a0 + (rows.map f).sum := by
  induction rows generalizing a0 with
  | nil => simp
  | cons r rs ih => simp [List.foldl_cons, ih, Nat.add_assoc]

/-- SQL `SUM` is the sum of the per-row values. -/
theorem sqlSumNat_eq_sum {α : Type} (f : α → Nat) (rows : List α) :
    sqlSumNat f rows = (rows.map f).sum := by
  unfold sqlSumNat
  simpa using sqlSumNat_foldl f rows 0

/-- Folding the SQL integer `SUM` from any accumulator totals the rows. -/
theorem sqlSumInt_foldl {α : Type} (f : α → Int) (rows : List α) (a0 : Int) :
    rows.foldl (fun acc r => acc + f r) a0 = a0 + (rows.map f).sum := by
  induction rows generalizing a0 with
  | nil => simp
  | cons r rs ih => simp [List.foldl_cons, ih, add_assoc]

/-- SQL integer `SUM` is the sum of the per-row values. -/
theorem sqlSumInt_eq_sum {α : Type} (f : α → Int) (rows : List α) :
    sqlSumInt f rows = (rows.map f).sum := by
  unfold sqlSumInt
  simpa using sqlSumInt_foldl f rows 0

/-- The claim's reading of `totalTasks`, in the data model's vocabulary
where the task arrays are the per-week `tasks` lists: the summed lengths
of all `WeekEntry.tasks` arrays across all plans. -/
def specTotalTasks (db : DB) : Nat :=
  sqlSumNat (fun p => sqlSumNat (fun w => w.tasks.length) p.plan) db.plans

/-- One generated week holding three tasks. -/
def week3 : WeekEntry :=
  { week := 1, topic := "Intro", hours := 14
    tasks := ["t1", "t2", "t3"] }

/-- A store with one study plan (a single week holding three tasks) pushed
to progress 100, built through the service. -/
def dbProgress : DB :=
  (updateStudyProgress
    (generateStudyPlan DB.empty (some "Math") (some "2026-01-01") (some 2)
      (7 * 86400000) 0 [week3] "t0").1 1 100 true).1

/-- C8 (counterexample): with one fully completed plan of one week holding
three tasks the endpoint reports totalTasks = 1 and completedTasks = 1 —
the number of top-level `plan_json` entries — while the claim's
task-array-length reading yields 3. -/
theorem dashboardStats_tasks_cx :
    (dashboardStats dbProgress).totalTasks = 1 ∧
    (dashboardStats dbProgress).completedTasks = 1 ∧
    specTotalTasks dbProgress = 3 ∧
    (dashboardStats dbProgress).totalTasks ≠ specTotalTasks dbProgress := by
  decide

/-- C8 (amended): totalFlashcards is the summed `totalCount` over all
flashcard sets; totalTasks is the summed number of top-level entries
(weeks) of each plan's `plan_json` array — not the nested per-week task
arrays — and completedTasks is the summed `⌊progress · weeks / 100⌋`. -/
theorem dashboardStats_amended (db : DB) :
    (dashboardStats db).totalFlashcards
      = (db.sets.map fun s => s.totalCount).sum ∧
    (dashboardStats db).totalTasks
      = (db.plans.map fun p => p.plan.length).sum ∧
    (dashboardStats db).completedTasks
      = (db.plans.map fun p => (p.progress * (p.plan.length : Int)) / 100).sum := by
  exact ⟨sqlSumNat_eq_sum _ _, sqlSumNat_eq_sum _ _, sqlSumInt_eq_sum _ _⟩

/-! ## C6: export text reproduces all persisted fields -/

/-- Verbatim occurrence: `t` occurs as a contiguous substring of `s`. -/
def ContainsStr (s t : String) : Prop := ∃ pre post, s = pre ++ t ++ post

/-- Every string occurs in itself. -/
theorem containsStr_self (t : String) : ContainsStr t t := by
  refine ⟨"", "", ?_⟩
  simp

/-- Occurrence survives prepending. -/
theorem ContainsStr.addLeft {s t : String} (x : String)
    (h : ContainsStr s t) : ContainsStr (x ++ s) t := by
  obtain ⟨p, q, rfl⟩ := h
  exact ⟨x ++ p, q, by simp [String.append_assoc]⟩

/-- Occurrence survives appending. -/
theorem ContainsStr.addRight {s t : String} (y : String)
    (h : ContainsStr s t) : ContainsStr (s ++ y) t := by
  obtain ⟨p, q, rfl⟩ := h
  exact ⟨p, q ++ y, by simp [String.append_assoc]⟩

/-- Occurrence is transitive. -/
theorem ContainsStr.trans {s t u : String} (h1 : ContainsStr s t)
    (h2 : ContainsStr t u) : ContainsStr s u := by
  obtain ⟨p, q, rfl⟩ := h1
  obtain ⟨p2, q2, rfl⟩ := h2
  exact ⟨p ++ p2, q2 ++ q, by simp [String.append_assoc]⟩

/-- Every member of a joined list occurs in the join. -/
theorem containsStr_joinSep (sep : String) (l : List String) (x : String)
    (hx : x ∈ l) : ContainsStr (joinSep sep l) x := by
  induction l with
  | nil => cases hx
  | cons a rest ih =>
    cases rest with
    | nil =>
      rcases List.mem_singleton.mp hx with rfl
      exact containsStr_self x
    | cons b rest2 =>
      rcases List.mem_cons.mp hx with rfl | hx2
      · refine ⟨"", sep ++ joinSep sep (b :: rest2), ?_⟩
        simp [joinSep, String.append_assoc]
      · have h := (ih hx2).addLeft (a ++ sep)
        simpa [joinSep, String.append_assoc] using h

/-- The empty string has no characters. -/
theorem data_empty : ("" : String).data = [] := rfl

/-- A string containing a non-empty string is non-empty. -/
theorem ContainsStr.ne_empty {s t : String} (h : ContainsStr s t)
    (ht : t.data ≠ []) : s ≠ "" := by
  obtain ⟨p, q, rfl⟩ := h
  intro hc
  have hd := congrArg String.data hc
  rw [String.data_append, String.data_append, data_empty] at hd
  exact ht (List.append_eq_nil.mp (List.append_eq_nil.mp hd).1).2

/-- The week block renders its topic verbatim. -/
theorem renderWeek_contains_topic (w : WeekEntry) :
    ContainsStr (renderWeek w) w.topic := by
  simp only [renderWeek]
  apply ContainsStr.addRight
  apply ContainsStr.addRight
  apply ContainsStr.addRight
  apply ContainsStr.addRight
  apply ContainsStr.addRight
  apply ContainsStr.addLeft
  exact containsStr_self _

/-- The week block renders its hours verbatim. -/
theorem renderWeek_contains_hours (w : WeekEntry) :
    ContainsStr (renderWeek w) (toString w.hours) := by
  simp only [renderWeek]
  apply ContainsStr.addRight
  apply ContainsStr.addRight
  apply ContainsStr.addRight
  apply ContainsStr.addLeft
  exact containsStr_self _

/-- The week block renders each of its task strings verbatim. -/
theorem renderWeek_contains_task (w : WeekEntry) (t : String)
    (ht : t ∈ w.tasks) : ContainsStr (renderWeek w) t := by
  simp only [renderWeek]
  apply ContainsStr.addRight
  apply ContainsStr.addLeft
  refine (containsStr_joinSep _ _ ("  - " ++ t) ?_).trans
    ((containsStr_self t).addLeft "  - ")
  exact List.mem_map_of_mem _ ht

/-- The study-plan export contains each week's block. -/
theorem formatStudyPlan_contains_week (locDate locDateTime : String → String)
    (plan : StudyPlanRow) (w : WeekEntry) (hw : w ∈ plan.plan) :
    ContainsStr (formatStudyPlanForExport locDate locDateTime plan)
      (renderWeek w) := by
  simp only [formatStudyPlanForExport]
  apply ContainsStr.addRight
  apply ContainsStr.addLeft
  exact containsStr_joinSep _ _ _ (List.mem_map_of_mem renderWeek hw)

/-- The study-plan export opens with its header literal. -/
theorem formatStudyPlan_contains_header (locDate locDateTime : String → String)
    (plan : StudyPlanRow) :
    ContainsStr (formatStudyPlanForExport locDate locDateTime plan)
      "STUDY PLAN: " := by
  simp only [formatStudyPlanForExport]
  apply ContainsStr.addRight
  apply ContainsStr.addRight
  apply ContainsStr.addRight
  apply ContainsStr.addRight
  apply ContainsStr.addRight
  apply ContainsStr.addRight
  apply ContainsStr.addRight
  exact containsStr_self _

/-- The study-plan export is never the empty string. -/
theorem formatStudyPlan_ne_empty (locDate locDateTime : String → String)
    (plan : StudyPlanRow) :
    formatStudyPlanForExport locDate locDateTime plan ≠ "" :=
  (formatStudyPlan_contains_header locDate locDateTime plan).ne_empty
    (by decide)

/-- The card block renders its question verbatim. -/
theorem renderCard_contains_question (i : Nat) (c : FlashcardRow) :
    ContainsStr (renderCard i c) c.question := by
  simp only [renderCard]
  apply ContainsStr.addRight
  apply ContainsStr.addRight
  apply ContainsStr.addRight
  apply ContainsStr.addRight
  apply ContainsStr.addRight
  apply ContainsStr.addLeft
  exact containsStr_self _

/-- The card block renders its answer verbatim. -/
theorem renderCard_contains_answer (i : Nat) (c : FlashcardRow) :
    ContainsStr (renderCard i c) c.answer := by
  simp only [renderCard]
  apply ContainsStr.addRight
  apply ContainsStr.addRight
  apply ContainsStr.addRight
  apply ContainsStr.addLeft
  exact containsStr_self _

/-- Every card of the list is rendered (at some 1-based index) in the
indexed card rendering. -/
theorem renderCards_mem (cards : List FlashcardRow) (c : FlashcardRow)
    (hc : c ∈ cards) : ∀ n, ∃ i, renderCard i c ∈ renderCards n cards := by
  induction cards with
  | nil => cases hc
  | cons d ds ih =>
    intro n
    rcases List.mem_cons.mp hc with rfl | h2
    · exact ⟨n, by simp [renderCards]⟩
    · obtain ⟨i, hi⟩ := ih h2 (n + 1)
      exact ⟨i, by simp [renderCards, hi]⟩

/-- The flashcards export contains each card's block. -/
theorem formatFlashcards_contains_card (locDateTime : String → String)
    (s : FlashcardSetRow) (cards : List FlashcardRow) (c : FlashcardRow)
    (hc : c ∈ cards) :
    ∃ i, ContainsStr (formatFlashcardsForExport locDateTime s cards)
      (renderCard i c) := by
  obtain ⟨i, hi⟩ := renderCards_mem cards c hc 0
  refine ⟨i, ?_⟩
  simp only [formatFlashcardsForExport]
  apply ContainsStr.addRight
  apply ContainsStr.addLeft
  exact containsStr_joinSep _ _ _ hi

/-- The flashcards export opens with its header literal. -/
theorem formatFlashcards_contains_header (locDateTime : String → String)
    (s : FlashcardSetRow) (cards : List FlashcardRow) :
    ContainsStr (formatFlashcardsForExport locDateTime s cards)
      "FLASHCARDS: " := by
  simp only [formatFlashcardsForExport]
  apply ContainsStr.addRight
  apply ContainsStr.addRight
  apply ContainsStr.addRight
  apply ContainsStr.addRight
  apply ContainsStr.addRight
  apply ContainsStr.addRight
  apply ContainsStr.addRight
  apply ContainsStr.addRight
  apply ContainsStr.addRight
  apply ContainsStr.addRight
  exact containsStr_self _

/-- The flashcards export is never the empty string. -/
theorem formatFlashcards_ne_empty (locDateTime : String → String)
    (s : FlashcardSetRow) (cards : List FlashcardRow) :
    formatFlashcardsForExport locDateTime s cards ≠ "" :=
  (formatFlashcards_contains_header locDateTime s cards).ne_empty (by decide)

/-- The chat export opens with its header literal. -/
theorem formatChat_contains_header (locDateTime : String → String)
    (history : List ChatRow) :
    ContainsStr (formatChatHistoryForExport locDateTime history)
      "CHAT HISTORY\n" := by
  simp only [formatChatHistoryForExport]
  apply ContainsStr.addRight
  apply ContainsStr.addRight
  apply ContainsStr.addRight
  exact containsStr_self _

/-- The chat export is never the empty string. -/
theorem formatChat_ne_empty (locDateTime : String → String)
    (history : List ChatRow) :
    formatChatHistoryForExport locDateTime history ≠ "" :=
  (formatChat_contains_header locDateTime history).ne_empty (by decide)

/-- C6: the flat export text of a study plan reproduces verbatim its
course name, hours per day, total hours, progress, and every week's
topic, hours and task strings; the flat export text of a flashcard set
reproduces verbatim its topic, total and known counts, and every card's
question and answer. -/
theorem export_reproduces_fields (locDate locDateTime : String → String)
    (plan : StudyPlanRow) (s : FlashcardSetRow) (cards : List FlashcardRow) :
    (ContainsStr (formatStudyPlanForExport locDate locDateTime plan)
        plan.courseName ∧
      ContainsStr (formatStudyPlanForExport locDate locDateTime plan)
        (toString plan.hoursPerDay) ∧
      ContainsStr (formatStudyPlanForExport locDate locDateTime plan)
        (toString plan.totalHours) ∧
      ContainsStr (formatStudyPlanForExport locDate locDateTime plan)
        (toString plan.progress) ∧
      ∀ w ∈ plan.plan,
        ContainsStr (formatStudyPlanForExport locDate locDateTime plan)
            w.topic ∧
          ContainsStr (formatStudyPlanForExport locDate locDateTime plan)
            (toString w.hours) ∧
          ∀ t ∈ w.tasks,
            ContainsStr (formatStudyPlanForExport locDate locDateTime plan)
              t) ∧
    (ContainsStr (formatFlashcardsForExport locDateTime s cards) s.topic ∧
      ContainsStr (formatFlashcardsForExport locDateTime s cards)
        (toString s.totalCount) ∧
      ContainsStr (formatFlashcardsForExport locDateTime s cards)
        (toString s.knownCount) ∧
      ∀ c ∈ cards,
        ContainsStr (formatFlashcardsForExport locDateTime s cards)
            c.question ∧
          ContainsStr (formatFlashcardsForExport locDateTime s cards)
            c.answer) := by
  constructor
  · refine ⟨?_, ?_, ?_, ?_, ?_⟩
    · simp only [formatStudyPlanForExport]
      apply ContainsStr.addRight
      apply ContainsStr.addRight
      apply ContainsStr.addRight
      apply ContainsStr.addRight
      apply ContainsStr.addRight
      apply ContainsStr.addRight
      apply ContainsStr.addLeft
      exact containsStr_self _
    · simp only [formatStudyPlanForExport]
      apply ContainsStr.addRight
      apply ContainsStr.addRight
      apply ContainsStr.addLeft
      apply ContainsStr.addRight
      apply ContainsStr.addRight
      apply ContainsStr.addRight
      apply ContainsStr.addRight
      apply ContainsStr.addRight
      apply ContainsStr.addLeft
      exact containsStr_self _
    · simp only [formatStudyPlanForExport]
      apply ContainsStr.addRight
      apply ContainsStr.addRight
      apply ContainsStr.addLeft
      apply ContainsStr.addRight
      apply ContainsStr.addRight
      apply ContainsStr.addRight
      apply ContainsStr.addLeft
      exact containsStr_self _
    · simp only [formatStudyPlanForExport]
      apply ContainsStr.addRight
      apply ContainsStr.addRight
      apply ContainsStr.addLeft
      apply ContainsStr.addRight
      apply ContainsStr.addLeft
      exact containsStr_self _
    · intro w hw
      refine ⟨?_, ?_, ?_⟩
      · exact (formatStudyPlan_contains_week locDate locDateTime plan w hw).trans
          (renderWeek_contains_topic w)
      · exact (formatStudyPlan_contains_week locDate locDateTime plan w hw).trans
          (renderWeek_contains_hours w)
      · intro t ht
        exact (formatStudyPlan_contains_week locDate locDateTime plan w hw).trans
          (renderWeek_contains_task w t ht)
  · refine ⟨?_, ?_, ?_, ?_⟩
    · simp only [formatFlashcardsForExport]
      apply ContainsStr.addRight
      apply ContainsStr.addRight
      apply ContainsStr.addRight
      apply ContainsStr.addRight
      apply ContainsStr.addRight
      apply ContainsStr.addRight
      apply ContainsStr.addRight
      apply ContainsStr.addRight
      apply ContainsStr.addRight
      apply ContainsStr.addLeft
      exact containsStr_self _
    · simp only [formatFlashcardsForExport]
      apply ContainsStr.addRight
      apply ContainsStr.addRight
      apply ContainsStr.addRight
      apply ContainsStr.addRight
      apply ContainsStr.addRight
      apply ContainsStr.addLeft
      exact containsStr_self _
    · simp only [formatFlashcardsForExport]
      apply ContainsStr.addRight
      apply ContainsStr.addRight
      apply ContainsStr.addRight
      apply ContainsStr.addLeft
      exact containsStr_self _
    · intro c hc
      obtain ⟨i, hi⟩ := formatFlashcards_contains_card locDateTime s cards c hc
      exact ⟨hi.trans (renderCard_contains_question i c),
        hi.trans (renderCard_contains_answer i c)⟩

/-- The card row of the second concrete set. -/
def cardQ4 : FlashcardRow :=
  { id := 4, setId := 2, question := "q4", answer := "a4", known := false }

/-- A concrete one-week plan row for the export witness. -/
def planW : StudyPlanRow :=
  { id := 1, courseName := "Algebra", deadline := "2026-01-01"
    hoursPerDay := 2, daysUntil := 7, totalHours := 14, plan := [week3]
    progress := 40, completed := false, createdAt := "t0" }

/-- Witness for C6: on a concrete plan and the concrete flashcard store,
the exports contain the course name, a task, a question and an answer. -/
theorem export_reproduces_fields_witness :
    ContainsStr (formatStudyPlanForExport id id planW) "Algebra" ∧
    ContainsStr (formatStudyPlanForExport id id planW) "t2" ∧
    ContainsStr (formatFlashcardsForExport id sChem dbTwo.cards) "q4" ∧
    ContainsStr (formatFlashcardsForExport id sChem dbTwo.cards) "a4" := by
  have h := export_reproduces_fields id id planW sChem dbTwo.cards
  refine ⟨h.1.1, (h.1.2.2.2.2 week3 (by decide)).2.2 "t2" (by decide), ?_, ?_⟩
  · exact (h.2.2.2.2 cardQ4 (by decide)).1
  · exact (h.2.2.2.2 cardQ4 (by decide)).2

/-! ## C7: export filenames -/

/-- C7: every successful `download-export` answers with a filename of the
shape `<type-prefix>-<slug(title-or-topic)>-<epochMs>.<format>`, the slug
replacing every whitespace run of the record's title/topic by a hyphen
(the chat export has no record title and uses the fixed `chat-history`
prefix and no slug); an unknown type yields a 400 validation error and a
missing record or empty content a 404. -/
theorem downloadExport_filenames (db : DB) (id : Nat) (format : String)
    (nowMs : Int) (locDate locDateTime : String → String) :
    (∀ ty, ty ∉ (["study", "notes", "chat", "flashcards"] : List String) →
      downloadExport db ty id format nowMs locDate locDateTime
        = .error .badRequest) ∧
    (∀ p, (db.plans.filter fun q => q.id == id).head? = some p →
      downloadExport db "study" id format nowMs locDate locDateTime
        = .ok (formatStudyPlanForExport locDate locDateTime p,
            "study-plan-" ++ slugify p.courseName ++ "-" ++ toString nowMs
              ++ "." ++ format)) ∧
    ((db.plans.filter fun q => q.id == id).head? = none →
      downloadExport db "study" id format nowMs locDate locDateTime
        = .error .notFound) ∧
    (∀ n, (db.notes.filter fun q => q.id == id).head? = some n →
      n.content ≠ "" →
      downloadExport db "notes" id format nowMs locDate locDateTime
        = .ok (n.content,
            "note-" ++ slugify n.title ++ "-" ++ toString nowMs ++ "."
              ++ format)) ∧
    (∀ n, (db.notes.filter fun q => q.id == id).head? = some n →
      n.content = "" →
      downloadExport db "notes" id format nowMs locDate locDateTime
        = .error .notFound) ∧
    ((db.notes.filter fun q => q.id == id).head? = none →
      downloadExport db "notes" id format nowMs locDate locDateTime
        = .error .notFound) ∧
    (downloadExport db "chat" id format nowMs locDate locDateTime
      = .ok (formatChatHistoryForExport locDateTime db.chat,
          "chat-history-" ++ toString nowMs ++ "." ++ format)) ∧
    (∀ s, (db.sets.filter fun q => q.id == id).head? = some s →
      downloadExport db "flashcards" id format nowMs locDate locDateTime
        = .ok (formatFlashcardsForExport locDateTime s
            (db.cards.filter fun c => c.setId == id),
            "flashcards-" ++ slugify s.topic ++ "-" ++ toString nowMs
              ++ "." ++ format)) ∧
    ((db.sets.filter fun q => q.id == id).head? = none →
      downloadExport db "flashcards" id format nowMs locDate locDateTime
        = .error .notFound) := by
  refine ⟨?_, ?_, ?_, ?_, ?_, ?_, ?_, ?_, ?_⟩
  · intro ty hty
    simp only [List.mem_cons, List.mem_singleton, not_or] at hty
    obtain ⟨hs, hn, hc, hf⟩ := hty
    simp [downloadExport, hs, hn, hc, hf]
  · intro p hp
    simp [downloadExport, hp, formatStudyPlan_ne_empty locDate locDateTime p]
  · intro hp
    simp [downloadExport, hp]
  · intro n hn hne
    simp [downloadExport, hn, hne]
  · intro n hn hemp
    simp [downloadExport, hn, hemp]
  · intro hn
    simp [downloadExport, hn]
  · simp [downloadExport, formatChat_ne_empty locDateTime db.chat]
  · intro s hs
    simp [downloadExport, hs, formatFlashcards_ne_empty locDateTime s
      (db.cards.filter fun c => c.setId == id)]
  · intro hs
    simp [downloadExport, hs]

/-- Witness for C7 at the concrete two-set store: a bogus type is a 400,
a missing study-plan id a 404, the flashcards export carries the slugged
topic filename, and the slug replaces whitespace runs by hyphens. -/
theorem downloadExport_filenames_witness :
    downloadExport dbTwo "pdf" 2 "txt" 99 id id = .error .badRequest ∧
    downloadExport dbTwo "study" 2 "txt" 99 id id = .error .notFound ∧
    downloadExport dbTwo "flashcards" 2 "txt" 99 id id
      = .ok (formatFlashcardsForExport id sChem
            (dbTwo.cards.filter fun c => c.setId == 2),
          "flashcards-" ++ slugify sChem.topic ++ "-" ++ toString (99 : Int)
            ++ "." ++ "txt") ∧
    slugify "Organic  Chemistry II" = "Organic-Chemistry-II" := by
  have h := downloadExport_filenames dbTwo 2 "txt" 99 id id
  exact ⟨h.1 "pdf" (by decide), h.2.2.1 (by decide),
    h.2.2.2.2.2.2.2.1 sChem (by decide), by decide⟩

end StudyMgmt
